import Mathlib

/-!
Shallow embedding of `src/freenect.rs` (freenect-rs): the safe Rust wrapper
around the libfreenect C driver.  The native FFI calls (`freenect_init`,
`freenect_num_devices`, `freenect_open_device`, `freenect_start_depth`,
`freenect_process_events`, ...) return C status codes the wrapper only
inspects via `< 0`; we model each such call by passing its integer result as
an explicit argument, in the order the Rust code performs the calls.  The
mutable fields of `FreenectContext` and `FreenectDevice` become explicit
state records threaded through the functions; channel endpoints
(`std::sync::mpsc`) are modelled by their observable state: whether the
receiving half is still alive and, for bounded channels, how many messages
are buffered against the capacity.  Ghost fields (`running_threads`,
`depth_stop_calls`, ...) record externally observable effects (threads
spawned by `thread::spawn`, `freenect_stop_depth` calls, callback
registrations) that the Rust state does not store but the specification
talks about.
-/

namespace Freenect

/-- Mirrors `FreenectError { reason: String }`: every failure carries only a
human-readable reason string. -/
structure FreenectError where
  reason : String
  deriving DecidableEq, Repr

/-- State of the `FreenectContext` fields that the wrapper mutates.
`drop_sender` mirrors `Mutex<Option<Sender<()>>>`: `none` when no sender is
stored; `some alive` when a sender is stored, where `alive` records whether
the receiving half (held by the spawned pump thread) has not yet been
dropped, i.e. whether `sender.send(())` would succeed.  `thread_joiner`
mirrors `RefCell<Option<JoinHandle<()>>>` as an `isSome` flag.
`running_threads` is a ghost count of background pump threads currently
executing (each `thread::spawn` adds one; joining or loop exit removes). -/
structure CtxState where
  use_video : Bool
  drop_sender : Option Bool
  thread_joiner : Bool
  running_threads : Nat
  deriving DecidableEq, Repr

/-- `FreenectContext::init`: calls `freenect_init`; a negative result is the
driver-init error, otherwise the context starts with `use_video = false`,
no stop-signal sender and no join handle. -/
def FreenectContext.init (initResult : Int) : Except FreenectError CtxState :=
  if initResult < 0 then .error ⟨"Unable to create freenect context"⟩
  else .ok { use_video := false, drop_sender := none, thread_joiner := false,
             running_threads := 0 }

/-- `FreenectContext::setup_video`: selects the camera subdevice and sets
`use_video = true`. -/
def setup_video (st : CtxState) : CtxState :=
  { st with use_video := true }

/-- `FreenectContext::setup_video_motor`: selects camera and motor subdevices
and sets `use_video = true`. -/
def setup_video_motor (st : CtxState) : CtxState :=
  { st with use_video := true }

/-- `FreenectContext::spawn_process_thread`, line for line:
if a stop-signal sender is stored and the probe `sender.send(())` FAILS
(receiver dropped, i.e. `drop_sender = some false`), return the
"thread is already running" error; in every other case (no sender stored, or
probe send succeeded because the old thread still holds the receiver) fall
through: create a fresh channel, overwrite `drop_sender` with the new
(connected) sender, and `thread::spawn` a new pump thread (ghost count +1;
the old thread, if any, keeps running until it next polls its receiver). -/
def spawn_process_thread (st : CtxState) : Except FreenectError CtxState :=
  match st.drop_sender with
  | some alive =>
      if alive then
        .ok { st with drop_sender := some true, thread_joiner := true,
                      running_threads := st.running_threads + 1 }
      else
        .error ⟨"Cannot spawn process thread, thread is already running"⟩
  | none =>
      .ok { st with drop_sender := some true, thread_joiner := true,
                    running_threads := st.running_threads + 1 }

/-- `FreenectContext::stop_process_thread`: takes (and drops) the stored
stop-signal sender, then takes the join handle; if one was stored, joins the
thread and returns the join outcome (modelled as the argument
`joinOutcome`, `Except` of a panic payload), else returns `Ok(())`.  After a
join no background thread is left running. -/
def stop_process_thread (st : CtxState) (joinOutcome : Except String Unit) :
    Except String Unit × CtxState :=
  let st1 : CtxState := { st with drop_sender := none }
  if st1.thread_joiner then
    (joinOutcome, { st1 with thread_joiner := false, running_threads := 0 })
  else
    (.ok (), st1)

/-- Result of polling the stop-signal receiver (`Receiver::try_recv`) at the
top of the pump loop: a buffered probe message, an empty connected channel,
or a dropped sender. -/
inductive StopSignal where
  | message
  | empty
  | disconnected
  deriving DecidableEq, Repr

/-- Outcome of one iteration of the background pump loop. -/
inductive LoopStep where
  | continued
  | stopped
  deriving DecidableEq, Repr

/-- One iteration of the `'l: loop` body spawned by `spawn_process_thread`:
`try_recv` first — `Ok(_)` and `Err(Empty)` fall through, `Err(Disconnected)`
breaks — then `freenect_process_events`; ANY negative pump result breaks the
loop (the interrupted-system-call special case is only present as a
commented-out TODO in the source), a non-negative result continues. -/
def process_thread_iteration (sig : StopSignal) (pumpResult : Int) : LoopStep :=
  match sig with
  | .disconnected => .stopped
  | _ => if pumpResult < 0 then .stopped else .continued

/-- Observable state of the sending half of a bounded `sync_channel`:
its capacity, how many messages are currently buffered, and whether the
receiving half is still alive. -/
structure SyncSenderState where
  capacity : Nat
  buffered : Nat
  connected : Bool
  deriving DecidableEq, Repr

/-- Result of `SyncSender::try_send`. -/
inductive TrySendResult where
  | ok
  | full
  | disconnected
  deriving DecidableEq, Repr

/-- `SyncSender::try_send`: never blocks; fails with `Disconnected` when the
receiver is gone, with `Full` when the buffer is at capacity, otherwise
buffers the message. -/
def trySend (s : SyncSenderState) : TrySendResult × SyncSenderState :=
  if s.connected = false then (.disconnected, s)
  else if s.capacity ≤ s.buffered then (.full, s)
  else (.ok, { s with buffered := s.buffered + 1 })

/-- State of the `FreenectDevice` fields the wrapper mutates: the capability
flag copied from the Context at `open_device` time, the two mutex-protected
sender slots, plus ghost fields recording which native callbacks
`FreenectDevice::new` registered and how many native stop calls the stream
teardowns issued. -/
structure DeviceState where
  use_video : Bool
  depth_sender : Option SyncSenderState
  video_sender : Option SyncSenderState
  depth_callback_registered : Bool
  video_callback_registered : Bool
  depth_stop_calls : Nat
  video_stop_calls : Nat
  deriving DecidableEq, Repr

/-- `FreenectDevice::new`: both sender slots start empty; the depth callback
is always registered, the video callback only when `use_video` is set. -/
def FreenectDevice.new (use_video : Bool) : DeviceState :=
  { use_video := use_video,
    depth_sender := none, video_sender := none,
    depth_callback_registered := true,
    video_callback_registered := use_video,
    depth_stop_calls := 0, video_stop_calls := 0 }

/-- `FreenectContext::num_devices`: negative native result is the query
error, otherwise the count as an unsigned number (`res as u32`). -/
def num_devices (numDevicesResult : Int) : Except FreenectError Nat :=
  if numDevicesResult < 0 then
    .error ⟨"Unable to retrieve number of freenect devices"⟩
  else .ok numDevicesResult.toNat

/-- `FreenectContext::open_device`: propagates a `num_devices` failure via
`?`; fails with the device-not-found error when `nr ≥ num_devices()`; then
calls `freenect_open_device` (result `openResult`), failing on a negative
result, else builds the device with the context's `use_video` flag. -/
def open_device (st : CtxState) (numDevicesResult openResult : Int) (nr : Nat) :
    Except FreenectError DeviceState :=
  match num_devices numDevicesResult with
  | .error e => .error e
  | .ok n =>
      if n ≤ nr then .error ⟨"Device nr " ++ toString nr ++ " not found"⟩
      else if openResult < 0 then .error ⟨"Unable to open device"⟩
      else .ok (FreenectDevice.new st.use_video)

/-- `FreenectDepthStream::new`: `freenect_start_depth` first (negative result
fails, nothing else happens), then `sync_channel(2)`; returns the sending
half (the stream keeps the receiver). -/
def FreenectDepthStream.new (startDepthResult : Int) :
    Except FreenectError SyncSenderState :=
  if startDepthResult < 0 then .error ⟨"Unable to start depth"⟩
  else .ok { capacity := 2, buffered := 0, connected := true }

/-- `FreenectVideoStream::new`: `freenect_start_video` then
`sync_channel(2)`. -/
def FreenectVideoStream.new (startVideoResult : Int) :
    Except FreenectError SyncSenderState :=
  if startVideoResult < 0 then .error ⟨"Unable to start video"⟩
  else .ok { capacity := 2, buffered := 0, connected := true }

/-- `FreenectDevice::depth_stream`: under the `depth_sender` lock, fail if
the slot is occupied; otherwise `FreenectDepthStream::new(self)?` (a failure
propagates with the slot untouched), then store the sender in the slot.
Returns the result paired with the device state after the call. -/
def FreenectDevice.depth_stream (dev : DeviceState) (startDepthResult : Int) :
    Except FreenectError Unit × DeviceState :=
  if dev.depth_sender.isSome then
    (.error ⟨"Depth Stream already created"⟩, dev)
  else
    match FreenectDepthStream.new startDepthResult with
    | .error e => (.error e, dev)
    | .ok s => (.ok (), { dev with depth_sender := some s })

/-- `FreenectDevice::video_stream`: first the capability check (fails when
the context was created without video support), then under the
`video_sender` lock the occupied-slot check, then
`FreenectVideoStream::new(self)?`, then store the sender. -/
def FreenectDevice.video_stream (dev : DeviceState) (startVideoResult : Int) :
    Except FreenectError Unit × DeviceState :=
  if dev.use_video = false then
    (.error ⟨"Cannot build video stream, context created without support for it"⟩,
     dev)
  else if dev.video_sender.isSome then
    (.error ⟨"Video Stream already created"⟩, dev)
  else
    match FreenectVideoStream.new startVideoResult with
    | .error e => (.error e, dev)
    | .ok s => (.ok (), { dev with video_sender := some s })

/-- `Drop for FreenectDepthStream`: issue `freenect_stop_depth` (ghost
counter +1), then clear the device's depth sender slot. -/
def FreenectDepthStream.drop (dev : DeviceState) : DeviceState :=
  { dev with depth_sender := none, depth_stop_calls := dev.depth_stop_calls + 1 }

/-- `Drop for FreenectVideoStream`: issue `freenect_stop_video`, then clear
the device's video sender slot. -/
def FreenectVideoStream.drop (dev : DeviceState) : DeviceState :=
  { dev with video_sender := none, video_stop_calls := dev.video_stop_calls + 1 }

/-- How an invocation of a callback-bridge function ends: a normal return,
or a panic (either the explicit `panic!` on a disconnected channel, or
`Option::unwrap` called on an empty slot). -/
inductive CallbackOutcome where
  | returned
  | panicked (msg : String)
  deriving DecidableEq, Repr

/-- `depth_callback` applied to the device's depth sender slot: the code
runs `sender.as_ref().unwrap()` — an empty slot panics via `unwrap` — then
`try_send`; `Err(Disconnected)` hits the explicit `panic!`, while `Ok` and
`Err(Full)` both fall into the `_ => ()` arm and return normally. -/
def depth_callback (slot : Option SyncSenderState) :
    CallbackOutcome × Option SyncSenderState :=
  match slot with
  | none => (.panicked "called Option::unwrap on a None value", none)
  | some s =>
      let r := trySend s
      if r.1 = TrySendResult.disconnected then
        (.panicked "Depth Channel is disconnected", some r.2)
      else (.returned, some r.2)

/-- `video_callback`: identical to `depth_callback` but on the video slot
and with the video panic message. -/
def video_callback (slot : Option SyncSenderState) :
    CallbackOutcome × Option SyncSenderState :=
  match slot with
  | none => (.panicked "called Option::unwrap on a None value", none)
  | some s =>
      let r := trySend s
      if r.1 = TrySendResult.disconnected then
        (.panicked "Video Channel is disconnected", some r.2)
      else (.returned, some r.2)

/-! Helper lemmas shared by the claim theorems. -/

/-- `try_send` never grows the buffer beyond the channel's capacity. -/
theorem trySend_buffered_le (s : SyncSenderState) (h : s.buffered ≤ s.capacity) :
    (trySend s).2.buffered ≤ s.capacity := by
  unfold trySend
  by_cases hc : s.connected = false
  · simpa [hc] using h
  · by_cases hf : s.capacity ≤ s.buffered
    · simpa [hc, hf] using h
    · simp only [hc, hf, if_false, if_neg hf]
      simp [hc]
      omega

/-- On a non-empty slot, the depth callback leaves the slot holding the
sender in its post-`try_send` state. -/
theorem depth_callback_snd (s : SyncSenderState) :
    (depth_callback (some s)).2 = some (trySend s).2 := by
  unfold depth_callback
  by_cases h : (trySend s).1 = TrySendResult.disconnected <;> simp [h]

/-! Claim theorems. -/

/-- C1: the claim says `spawn_process_thread` fails with `AlreadyRunning` iff
a background thread is already active (probe send accepted), and otherwise
spawns exactly one thread, keeping at most one thread running.  The code has
the probe inverted: with a live thread (stored sender whose receiver is
alive, so the probe send succeeds) the call returns `Ok` and spawns a SECOND
thread (ghost count 1 → 2); with a dead thread (receiver dropped, probe send
fails) it returns the already-running error even though no thread runs. -/
theorem spawn_process_thread_bug :
    spawn_process_thread
        { use_video := false, drop_sender := some true,
          thread_joiner := true, running_threads := 1 } =
      .ok { use_video := false, drop_sender := some true,
            thread_joiner := true, running_threads := 2 } ∧
    spawn_process_thread
        { use_video := false, drop_sender := some false,
          thread_joiner := true, running_threads := 0 } =
      .error ⟨"Cannot spawn process thread, thread is already running"⟩ :=
  ⟨rfl, rfl⟩

/-- C2 counterexample: a callback invocation that finds an empty sender slot
does not take no action and return normally; `sender.as_ref().unwrap()`
panics on the empty (`None`) slot. -/
theorem depth_callback_empty_slot_cex :
    depth_callback none =
      (.panicked "called Option::unwrap on a None value", none) ∧
    (depth_callback none).1 ≠ CallbackOutcome.returned := by
  refine ⟨rfl, ?_⟩
  decide

/-- C2 (amended): a callback invocation with an EMPTY sender slot panics
(`Option::unwrap` on `None`); the explicit assertion branch fires when the
slot holds a sender whose channel is disconnected; only with a live
connected sender does the callback return normally. -/
theorem depth_callback_slot_cases (s : SyncSenderState) :
    (depth_callback none).1 =
      .panicked "called Option::unwrap on a None value" ∧
    (video_callback none).1 =
      .panicked "called Option::unwrap on a None value" ∧
    (s.connected = false →
      (depth_callback (some s)).1 = .panicked "Depth Channel is disconnected") ∧
    (s.connected = false →
      (video_callback (some s)).1 = .panicked "Video Channel is disconnected") ∧
    (s.connected = true → (depth_callback (some s)).1 = .returned) ∧
    (s.connected = true → (video_callback (some s)).1 = .returned) := by
  refine ⟨rfl, rfl, ?_, ?_, ?_, ?_⟩ <;> intro h
  · simp [depth_callback, trySend, h]
  · simp [video_callback, trySend, h]
  · unfold depth_callback trySend
    by_cases hf : s.capacity ≤ s.buffered <;> simp [h, hf]
  · unfold video_callback trySend
    by_cases hf : s.capacity ≤ s.buffered <;> simp [h, hf]

theorem depth_callback_slot_cases_witness :
    ((⟨2, 0, true⟩ : SyncSenderState).connected = true) ∧
    (depth_callback (some ⟨2, 0, true⟩)).1 = CallbackOutcome.returned :=
  ⟨rfl, (depth_callback_slot_cases ⟨2, 0, true⟩).2.2.2.2.1 rfl⟩

/-- C3 counterexample: when the native event pump returns the benign
interrupted-system-call result (`LIBUSB_ERROR_INTERRUPTED = -10`), the loop
does not swallow it and continue — the special case is commented out, so the
iteration stops like any other negative result. -/
theorem process_thread_interrupted_cex :
    process_thread_iteration .empty (-10) = .stopped ∧
    process_thread_iteration .empty (-10) ≠ .continued := by
  refine ⟨?_, ?_⟩ <;> decide

/-- C3 (amended): a disconnected stop signal stops the loop before pumping;
otherwise ANY negative pump result (the interrupted-system-call value
included) stops the loop, and a non-negative result continues it. -/
theorem process_thread_iteration_amended (sig : StopSignal) (p : Int) :
    process_thread_iteration .disconnected p = .stopped ∧
    (sig ≠ .disconnected → p < 0 →
      process_thread_iteration sig p = .stopped) ∧
    (sig ≠ .disconnected → 0 ≤ p →
      process_thread_iteration sig p = .continued) := by
  refine ⟨rfl, ?_, ?_⟩
  · intro hs hp
    cases sig with
    | disconnected => exact absurd rfl hs
    | message => simp [process_thread_iteration, hp]
    | empty => simp [process_thread_iteration, hp]
  · intro hs hp
    cases sig with
    | disconnected => exact absurd rfl hs
    | message => simp [process_thread_iteration, not_lt.mpr hp]
    | empty => simp [process_thread_iteration, not_lt.mpr hp]

theorem process_thread_iteration_amended_witness :
    (StopSignal.empty ≠ StopSignal.disconnected) ∧
    process_thread_iteration .empty 0 = .continued :=
  ⟨by decide,
   (process_thread_iteration_amended .empty 0).2.2 (by decide) (by decide)⟩

/-- C4: stream creation builds a bounded channel of capacity exactly 2;
with a live sender on a full channel the non-blocking send failure is
silently ignored (the frame is dropped and the callback returns with the
slot unchanged); a disconnected channel is fatal to the callback; and the
buffered-frame count never exceeds 2. -/
theorem channel_capacity_backpressure (s : SyncSenderState) (r : Int) :
    (0 ≤ r → FreenectDepthStream.new r =
      .ok { capacity := 2, buffered := 0, connected := true }) ∧
    (0 ≤ r → FreenectVideoStream.new r =
      .ok { capacity := 2, buffered := 0, connected := true }) ∧
    (s.connected = true → s.capacity ≤ s.buffered →
      depth_callback (some s) = (.returned, some s)) ∧
    (s.connected = false →
      (depth_callback (some s)).1 = .panicked "Depth Channel is disconnected") ∧
    (s.capacity = 2 → s.buffered ≤ 2 →
      ∀ s', (depth_callback (some s)).2 = some s' → s'.buffered ≤ 2) := by
  refine ⟨?_, ?_, ?_, ?_, ?_⟩
  · intro hr
    simp [FreenectDepthStream.new, not_lt.mpr hr]
  · intro hr
    simp [FreenectVideoStream.new, not_lt.mpr hr]
  · intro hc hf
    simp [depth_callback, trySend, hc, hf]
  · intro hc
    simp [depth_callback, trySend, hc]
  · intro hcap hbuf s' hs'
    rw [depth_callback_snd] at hs'
    have hle : (trySend s).2.buffered ≤ s.capacity :=
      trySend_buffered_le s (by omega)
    have : s' = (trySend s).2 := by
      exact Option.some_injective _ hs'.symm
    rw [this]
    omega

theorem channel_capacity_backpressure_witness :
    ((⟨2, 2, true⟩ : SyncSenderState).connected = true ∧
      (⟨2, 2, true⟩ : SyncSenderState).capacity ≤
        (⟨2, 2, true⟩ : SyncSenderState).buffered) ∧
    depth_callback (some ⟨2, 2, true⟩) = (.returned, some ⟨2, 2, true⟩) :=
  ⟨⟨rfl, by decide⟩,
   (channel_capacity_backpressure ⟨2, 2, true⟩ 0).2.2.1 rfl (by decide)⟩

/-- C5: opening a second stream of a kind already live fails with the
already-created error and leaves the device state (the live stream's
sender slot included) unchanged; stream teardown issues the native stop
call (ghost counter +1) and clears the slot; after teardown, an open of the
same kind succeeds when the native start call does. -/
theorem stream_already_open_then_reopen (dev : DeviceState) (r r' : Int)
    (hr' : 0 ≤ r') :
    (dev.depth_sender.isSome = true →
      FreenectDevice.depth_stream dev r =
        (.error ⟨"Depth Stream already created"⟩, dev)) ∧
    (FreenectDepthStream.drop dev).depth_sender = none ∧
    (FreenectDepthStream.drop dev).depth_stop_calls = dev.depth_stop_calls + 1 ∧
    (FreenectDevice.depth_stream (FreenectDepthStream.drop dev) r').1 = .ok () ∧
    (dev.use_video = true → dev.video_sender.isSome = true →
      FreenectDevice.video_stream dev r =
        (.error ⟨"Video Stream already created"⟩, dev)) ∧
    (FreenectVideoStream.drop dev).video_sender = none ∧
    (FreenectVideoStream.drop dev).video_stop_calls = dev.video_stop_calls + 1 ∧
    (dev.use_video = true →
      (FreenectDevice.video_stream (FreenectVideoStream.drop dev) r').1 =
        .ok ()) := by
  refine ⟨?_, rfl, rfl, ?_, ?_, rfl, rfl, ?_⟩
  · intro h
    simp [FreenectDevice.depth_stream, h]
  · simp [FreenectDevice.depth_stream, FreenectDepthStream.drop,
          FreenectDepthStream.new, not_lt.mpr hr']
  · intro hu h
    simp [FreenectDevice.video_stream, hu, h]
  · intro hu
    simp [FreenectDevice.video_stream, FreenectVideoStream.drop,
          FreenectVideoStream.new, hu, not_lt.mpr hr']

theorem stream_already_open_then_reopen_witness :
    ((0 : Int) ≤ 0 ∧
      (⟨true, some ⟨2, 0, true⟩, some ⟨2, 0, true⟩, true, true, 0, 0⟩ :
          DeviceState).depth_sender.isSome = true) ∧
    FreenectDevice.depth_stream
        (⟨true, some ⟨2, 0, true⟩, some ⟨2, 0, true⟩, true, true, 0, 0⟩ :
          DeviceState) 0 =
      (.error ⟨"Depth Stream already created"⟩,
       ⟨true, some ⟨2, 0, true⟩, some ⟨2, 0, true⟩, true, true, 0, 0⟩) :=
  ⟨⟨by decide, rfl⟩,
   (stream_already_open_then_reopen
      ⟨true, some ⟨2, 0, true⟩, some ⟨2, 0, true⟩, true, true, 0, 0⟩ 0 0
      (by decide)).1 rfl⟩

/-- C6: `video_stream` fails with the video-unsupported error iff the device
was opened from a Context without video capability; plain `init` leaves the
capability unset, `setup_video` / `setup_video_motor` set it, and
`open_device` copies the Context's flag into the Device. -/
theorem video_unsupported_iff (dev : DeviceState) (st : CtxState)
    (r ri nd op : Int) (nr : Nat) :
    ((FreenectDevice.video_stream dev r).1 =
        .error
          ⟨"Cannot build video stream, context created without support for it"⟩
      ↔ dev.use_video = false) ∧
    (0 ≤ ri → FreenectContext.init ri =
      .ok { use_video := false, drop_sender := none, thread_joiner := false,
            running_threads := 0 }) ∧
    (setup_video st).use_video = true ∧
    (setup_video_motor st).use_video = true ∧
    (∀ d, open_device st nd op nr = .ok d → d.use_video = st.use_video) := by
  refine ⟨?_, ?_, rfl, rfl, ?_⟩
  · cases hu : dev.use_video with
    | false => simp [FreenectDevice.video_stream, hu]
    | true =>
      by_cases hvs : dev.video_sender.isSome
      · simp [FreenectDevice.video_stream, hu, hvs]
      · by_cases hr : r < 0
        · simp [FreenectDevice.video_stream, FreenectVideoStream.new,
                hu, hvs, hr]
        · simp [FreenectDevice.video_stream, FreenectVideoStream.new,
                hu, hvs, hr]
  · intro hri
    simp [FreenectContext.init, not_lt.mpr hri]
  · intro d h
    unfold open_device num_devices at h
    by_cases hnd : nd < 0
    · simp [hnd] at h
    · by_cases hle : nd.toNat ≤ nr
      · simp [hnd, hle] at h
      · by_cases hop : op < 0
        · simp [hnd, hle, hop] at h
        · simp only [hnd, if_false, hle, hop, Except.ok.injEq] at h
          rw [← h]
          rfl

theorem video_unsupported_iff_witness :
    (0 : Int) ≤ 0 ∧
    ((FreenectDevice.video_stream (FreenectDevice.new false) 0).1 =
        .error
          ⟨"Cannot build video stream, context created without support for it"⟩
      ↔ (FreenectDevice.new false).use_video = false) :=
  ⟨by decide,
   (video_unsupported_iff (FreenectDevice.new false)
      ⟨false, none, false, 0⟩ 0 0 0 0 0).1⟩

/-- C7: with a device count successfully reported as `n`, `open_device nr`
fails with the device-not-found error for every `nr ≥ n`; for `nr < n` it
fails with the driver-open error exactly when the native open call returns
a negative result, and otherwise returns a Device. -/
theorem open_device_spec (st : CtxState) (nd op : Int) (nr n : Nat)
    (h : num_devices nd = .ok n) :
    (n ≤ nr → open_device st nd op nr =
        .error ⟨"Device nr " ++ toString nr ++ " not found"⟩) ∧
    (nr < n → op < 0 →
        open_device st nd op nr = .error ⟨"Unable to open device"⟩) ∧
    (nr < n → 0 ≤ op →
        open_device st nd op nr = .ok (FreenectDevice.new st.use_video)) := by
  refine ⟨?_, ?_, ?_⟩
  · intro hle
    simp [open_device, h, hle]
  · intro hlt hop
    simp [open_device, h, not_le.mpr hlt, hop]
  · intro hlt hop
    simp [open_device, h, not_le.mpr hlt, not_lt.mpr hop]

theorem open_device_spec_witness :
    num_devices 2 = .ok 2 ∧
    open_device ⟨false, none, false, 0⟩ 2 0 5 =
      .error ⟨"Device nr 5 not found"⟩ :=
  ⟨rfl,
   (open_device_spec ⟨false, none, false, 0⟩ 2 0 5 2 rfl).1 (by decide)⟩

/-- C8: `stop_process_thread` with no join handle stored returns success and
only takes the (absent) stop-signal sender; after any call both the sender
and the join handle are cleared, so an immediately following second call
also returns success. -/
theorem stop_process_thread_idem (st : CtxState) (j j' : Except String Unit) :
    (st.thread_joiner = false →
      stop_process_thread st j = (.ok (), { st with drop_sender := none })) ∧
    (stop_process_thread st j).2.drop_sender = none ∧
    (stop_process_thread st j).2.thread_joiner = false ∧
    (stop_process_thread (stop_process_thread st j).2 j').1 = .ok () := by
  refine ⟨?_, ?_, ?_, ?_⟩
  · intro h
    simp [stop_process_thread, h]
  · cases hj : st.thread_joiner <;> simp [stop_process_thread, hj]
  · cases hj : st.thread_joiner <;> simp [stop_process_thread, hj]
  · cases hj : st.thread_joiner <;> simp [stop_process_thread, hj]

theorem stop_process_thread_idem_witness :
    (⟨false, none, false, 0⟩ : CtxState).thread_joiner = false ∧
    stop_process_thread (⟨false, none, false, 0⟩ : CtxState) (.ok ()) =
      (.ok (), ⟨false, none, false, 0⟩) :=
  ⟨rfl,
   (stop_process_thread_idem ⟨false, none, false, 0⟩ (.ok ()) (.ok ())).1 rfl⟩

/-- C9: when the native start call fails during stream opening, the
operation returns the start error and the device state — the sender slot in
particular — is unchanged, so a later open of the same kind (with the start
call succeeding) is not blocked by the failed attempt. -/
theorem stream_start_failure_atomic (dev : DeviceState) (r r' : Int)
    (hd : dev.depth_sender = none) (hv : dev.video_sender = none)
    (hr : r < 0) (hr' : 0 ≤ r') :
    FreenectDevice.depth_stream dev r =
      (.error ⟨"Unable to start depth"⟩, dev) ∧
    (FreenectDevice.depth_stream dev r').1 = .ok () ∧
    (dev.use_video = true →
      FreenectDevice.video_stream dev r =
        (.error ⟨"Unable to start video"⟩, dev) ∧
      (FreenectDevice.video_stream dev r').1 = .ok ()) := by
  refine ⟨?_, ?_, ?_⟩
  · simp [FreenectDevice.depth_stream, FreenectDepthStream.new, hd, hr]
  · simp [FreenectDevice.depth_stream, FreenectDepthStream.new, hd,
          not_lt.mpr hr']
  · intro hu
    constructor
    · simp [FreenectDevice.video_stream, FreenectVideoStream.new, hv, hu, hr]
    · simp [FreenectDevice.video_stream, FreenectVideoStream.new, hv, hu,
            not_lt.mpr hr']

theorem stream_start_failure_atomic_witness :
    ((FreenectDevice.new true).depth_sender = none ∧
      (FreenectDevice.new true).video_sender = none ∧
      (-1 : Int) < 0 ∧ (0 : Int) ≤ 0) ∧
    FreenectDevice.depth_stream (FreenectDevice.new true) (-1) =
      (.error ⟨"Unable to start depth"⟩, FreenectDevice.new true) :=
  ⟨⟨rfl, rfl, by decide, by decide⟩,
   (stream_start_failure_atomic (FreenectDevice.new true) (-1) 0 rfl rfl
      (by decide) (by decide)).1⟩

/-- C10: only the video path is gated on the capability flag: device
creation always registers the depth callback and registers the video
callback exactly when the flag is set; `depth_stream` succeeds on a device
from a video-less context, and its result does not depend on the flag at
all. -/
theorem depth_not_gated (b : Bool) (dev : DeviceState) (r : Int)
    (hr : 0 ≤ r) :
    (FreenectDevice.new b).depth_callback_registered = true ∧
    (FreenectDevice.new b).video_callback_registered = b ∧
    (FreenectDevice.new false).use_video = false ∧
    (FreenectDevice.depth_stream (FreenectDevice.new false) r).1 = .ok () ∧
    (FreenectDevice.depth_stream { dev with use_video := b } r).1 =
      (FreenectDevice.depth_stream dev r).1 := by
  refine ⟨rfl, rfl, rfl, ?_, ?_⟩
  · simp [FreenectDevice.depth_stream, FreenectDevice.new,
          FreenectDepthStream.new, not_lt.mpr hr]
  · by_cases hds : dev.depth_sender.isSome
    · simp [FreenectDevice.depth_stream, hds]
    · by_cases hr0 : r < 0 <;>
        simp [FreenectDevice.depth_stream, FreenectDepthStream.new, hds, hr0]

theorem depth_not_gated_witness :
    (0 : Int) ≤ 0 ∧
    (FreenectDevice.depth_stream (FreenectDevice.new false) 0).1 = .ok () :=
  ⟨by decide,
   (depth_not_gated true (FreenectDevice.new false) 0 (by decide)).2.2.2.1⟩

end Freenect
